import Mathlib

/-!
Shallow embedding of `src/async_request.py` (repository `asyncrequest`): a
single class `Request` wrapping aiohttp.  The asynchronous code is sequential
from the caller's point of view (`request` runs `asyncio.run(self._request …)`
to completion), so it is embedded as explicit state passing over a `World`
that records the sessions created, the sessions closed, and the transport
calls actually performed.  Python exceptions are embedded as `Except`.

Python semantics relied on and noted where used:
* calling an `async def` function builds a coroutine object without running
  its body; the body runs only when the coroutine is awaited;
* `await asyncio.gather(c)` with one awaitable returns a one-element list of
  its result; `asyncio.gather(None)` raises
  `TypeError: An asyncio.Future, a coroutine or an awaitable is required`;
* `await` applied to a plain `int` raises
  `TypeError: object int cannot be used in await expression`.
-/

namespace AsyncRequest

/-- JSON values, the decode target of `response.json()`. -/
inductive Json where
  | null
  | bool (b : Bool)
  | num (n : Int)
  | str (s : String)
  | arr (elems : List Json)
  | obj (fields : List (String × Json))

/-- The five HTTP verbs of the dispatch dict in `Request._request`. -/
inductive Verb where
  | get
  | post
  | put
  | patch
  | delete
  deriving DecidableEq

/-- Model of `aiohttp.ClientTimeout`: only the `total` field is ever set by
the source (`aiohttp.ClientTimeout(total=…)`). -/
structure ClientTimeout where
  total : Rat
  deriving DecidableEq

/-- The mutable attributes of a `Request` instance set in `__init__`:
the default header dict and the stored request timeout. -/
structure ClientState where
  header : List (String × String)
  request_timeout : ClientTimeout
  deriving DecidableEq

/-- `Request.__init__`: header with `Connection: keep-alive` and the bearer
placeholder, timeout `ClientTimeout(total=2 * 60)`. -/
def Request.init : ClientState :=
  { header := [("Connection", "keep-alive"), ("Authorization", "bear your token")]
    request_timeout := ⟨2 * 60⟩ }

/-- The `_time_out` property getter: returns `self.request_timeout`. -/
def Request.time_out (st : ClientState) : ClientTimeout :=
  st.request_timeout

/-- The `_time_out` property setter: rebinds `self.request_timeout` to
`aiohttp.ClientTimeout(total=value)`. -/
def Request.set_time_out (st : ClientState) (value : Rat) : ClientState :=
  { st with request_timeout := ⟨value⟩ }

/-- Errors that can propagate out of the embedded code, plus the two error
classes named by the specification, which the source never defines nor
raises; they are included so that statements can compare against them.
* `typeError`: Python `TypeError` (from `asyncio.gather(None)` or from
  awaiting a non-awaitable);
* `contentTypeError`: `aiohttp.ContentTypeError` raised by
  `response.json()` when the response content type is not JSON; it carries
  the response status, not the body;
* `jsonDecodeError`: `json.JSONDecodeError` raised by `response.json()`
  when the body text does not parse; it carries the document text, not the
  status;
* `unsupportedMethodError`: modelled from the spec only (`must fail with an
  UnsupportedMethodError`); no such class exists in the source;
* `decodeError`: modelled from the spec only (`a DecodeError carrying the
  raw status and body`); no such class exists in the source. -/
inductive PyError where
  | typeError (msg : String)
  | contentTypeError (status : Nat)
  | jsonDecodeError (doc : String)
  | unsupportedMethodError (method : String)
  | decodeError (status : Nat) (body : String)
  deriving DecidableEq

/-- True exactly on the spec-modelled `UnsupportedMethodError`. -/
def PyError.isUnsupportedMethodError : PyError → Bool
  | .unsupportedMethodError _ => true
  | _ => false

/-- True exactly on the spec-modelled `DecodeError` (status and body). -/
def PyError.isDecodeError : PyError → Bool
  | .decodeError _ _ => true
  | _ => false

/-- Model of an aiohttp client response as far as the source reads it:
the numeric `status`, the raw body text, whether the content type is JSON,
and the JSON value of the body when it parses (`none` = unparsable/empty). -/
structure HttpResponse where
  status : Nat
  bodyText : String
  contentTypeJson : Bool
  bodyJson : Option Json

/-- Model of `aiohttp.ClientResponse.json()`: raises `ContentTypeError`
(carrying the status) when the content type is not JSON, raises
`json.JSONDecodeError` (carrying the document) when the body does not parse,
and otherwise returns the decoded value. -/
def HttpResponse.json (r : HttpResponse) : Except PyError Json :=
  if r.contentTypeJson then
    match r.bodyJson with
    | some j => .ok j
    | none => .error (.jsonDecodeError r.bodyText)
  else
    .error (.contentTypeError r.status)

/-- One network operation as recorded by a mock transport: the verb, the
target url, the payload fields actually handed to the aiohttp session call
(`none` where the sender does not pass that field), the headers and the
timeout given to the call. -/
structure TransportCall where
  verb : Verb
  url : String
  params : Option String
  data : Option String
  json : Option String
  headers : List (String × String)
  timeout : ClientTimeout
  deriving DecidableEq

/-- The environment: what status/body/decodability the server answers each
transport call with. -/
def Server : Type :=
  TransportCall → HttpResponse

/-- The observable resource state threaded through a run: a counter for
fresh session ids, the log of sessions constructed, the log of sessions
closed, and the log of network operations performed, each in order. -/
structure World where
  nextSession : Nat
  createdSessions : List Nat
  closedSessions : List Nat
  calls : List TransportCall
  deriving DecidableEq

/-- The empty initial world. -/
def World.initial : World :=
  { nextSession := 0, createdSessions := [], closedSessions := [], calls := [] }

/-- The `_client_session` property: every read builds a fresh
`aiohttp.ClientSession` (over a fresh `TCPConnector`); modelled as
allocating a fresh session id and logging its construction. -/
def Request.client_session (w : World) : Nat × World :=
  (w.nextSession,
   { w with
      nextSession := w.nextSession + 1
      createdSessions := w.createdSessions ++ [w.nextSession] })

/-- Performing one HTTP operation on a session: the call is logged and the
server's response returned.  (Used by the senders for
`session.get/post/put/patch/delete`.) -/
def sessionRequest (server : Server) (c : TransportCall) (w : World) :
    HttpResponse × World :=
  (server c, { w with calls := w.calls ++ [c] })

/-- `await session.close()`: logs the session as closed. -/
def sessionClose (sid : Nat) (w : World) : World :=
  { w with closedSessions := w.closedSessions ++ [sid] }

/-- Static method `_get`: `async with session.get(url, params, headers,
timeout)` then `response = await response.json()`, then
`await session.close()` and return.  The `close` line sits after the
`async with` block, so it is skipped when `response.json()` raises. -/
def Request._get (server : Server) (session : Nat) (url : String)
    (timeout : ClientTimeout) (params : Option String)
    (headers : List (String × String)) (w : World) :
    Except PyError Json × World :=
  let (response, w) := sessionRequest server
    { verb := .get, url := url, params := params, data := none, json := none
      headers := headers, timeout := timeout } w
  match response.json with
  | .ok j => (.ok j, sessionClose session w)
  | .error e => (.error e, w)

/-- Static method `_post`: `async with session.post(url, data, json,
headers, timeout)` then `response = await response.json()`, then
`await session.close()` and return; `close` is skipped on a decode
exception as in `_get`. -/
def Request._post (server : Server) (session : Nat) (url : String)
    (timeout : ClientTimeout) (data : Option String) (json : Option String)
    (headers : List (String × String)) (w : World) :
    Except PyError Json × World :=
  let (response, w) := sessionRequest server
    { verb := .post, url := url, params := none, data := data, json := json
      headers := headers, timeout := timeout } w
  match response.json with
  | .ok j => (.ok j, sessionClose session w)
  | .error e => (.error e, w)

/-- Static method `_put`: `async with session.put(url, data, headers,
timeout)` — no `json` parameter is passed to the session call — then
decode and close as in `_get`. -/
def Request._put (server : Server) (session : Nat) (url : String)
    (timeout : ClientTimeout) (data : Option String)
    (headers : List (String × String)) (w : World) :
    Except PyError Json × World :=
  let (response, w) := sessionRequest server
    { verb := .put, url := url, params := none, data := data, json := none
      headers := headers, timeout := timeout } w
  match response.json with
  | .ok j => (.ok j, sessionClose session w)
  | .error e => (.error e, w)

/-- Static method `_patch`: `async with session.patch(url, data, headers,
timeout)` — no `json` parameter is passed — then decode and close as in
`_get`. -/
def Request._patch (server : Server) (session : Nat) (url : String)
    (timeout : ClientTimeout) (data : Option String)
    (headers : List (String × String)) (w : World) :
    Except PyError Json × World :=
  let (response, w) := sessionRequest server
    { verb := .patch, url := url, params := none, data := data, json := none
      headers := headers, timeout := timeout } w
  match response.json with
  | .ok j => (.ok j, sessionClose session w)
  | .error e => (.error e, w)

/-- Static method `_delete`: `async with session.delete(url, headers,
timeout)` then `response = await response.status`.  `response.status` is a
plain `int`, and awaiting an `int` raises `TypeError` in Python, so after
the network call is performed the body raises; `await session.close()` and
the `return` are never reached. -/
def Request._delete (server : Server) (session : Nat) (url : String)
    (timeout : ClientTimeout) (headers : List (String × String)) (w : World) :
    Except PyError Nat × World :=
  let (_response, w) := sessionRequest server
    { verb := .delete, url := url, params := none, data := none, json := none
      headers := headers, timeout := timeout } w
  (.error (.typeError "object int cannot be used in await expression"), w)

/-- Python values as they reach the caller of `request()`: a decoded JSON
body, an integer status, or a list of results (what `asyncio.gather`
aggregates). -/
inductive PyVal where
  | json (j : Json)
  | int (n : Nat)
  | list (elems : List PyVal)

/-- Python `method.lower()` as far as the dispatch needs it: per-character
lowercasing (the five keys are ASCII). -/
def pyLower (s : String) : String :=
  ⟨s.data.map Char.toLower⟩

/-- The dict lookup `{...}.get(method.lower())` of `_request`, over the
five keys of the dispatch dict. -/
def methodKey (method : String) : Option Verb :=
  match pyLower method with
  | "get" => some .get
  | "post" => some .post
  | "put" => some .put
  | "patch" => some .patch
  | "delete" => some .delete
  | _ => none

/-- Coroutine method `_request`: builds the five-entry dict literal.  In
Python, evaluating the dict evaluates every value expression: each of the
five entries reads the `_client_session` property (constructing a fresh
session), reads `self.header` and `self._time_out`, and calls the verb
coroutine function, which builds a coroutine object *without running its
body*.  Then `.get(method.lower())` selects one entry and
`await asyncio.gather(…)` awaits it, wrapping its single result in a list;
for an unrecognized method the lookup yields `None` and `asyncio.gather`
raises `TypeError`.  Only the selected coroutine ever runs, so only its
session performs a network call; the four other coroutine objects and
their sessions are discarded unawaited. -/
def Request._request (server : Server) (st : ClientState)
    (method url : String) (params data json : Option String) (w : World) :
    Except PyError PyVal × World :=
  let (sGet, w) := Request.client_session w
  let (sPost, w) := Request.client_session w
  let (sPut, w) := Request.client_session w
  let (sPatch, w) := Request.client_session w
  let (sDelete, w) := Request.client_session w
  match methodKey method with
  | some .get =>
      let (r, w) := Request._get server sGet url st.request_timeout params
        st.header w
      (r.map (fun j => .list [.json j]), w)
  | some .post =>
      let (r, w) := Request._post server sPost url st.request_timeout data
        json st.header w
      (r.map (fun j => .list [.json j]), w)
  | some .put =>
      let (r, w) := Request._put server sPut url st.request_timeout data
        st.header w
      (r.map (fun j => .list [.json j]), w)
  | some .patch =>
      let (r, w) := Request._patch server sPatch url st.request_timeout data
        st.header w
      (r.map (fun j => .list [.json j]), w)
  | some .delete =>
      let (r, w) := Request._delete server sDelete url st.request_timeout
        st.header w
      (r.map (fun n => .list [.int n]), w)
  | none =>
      (.error (.typeError
        "An asyncio.Future, a coroutine or an awaitable is required"), w)

/-- The public entry point `request(method, url, **kwargs)`: runs
`asyncio.run(self._request(method, url, **kwargs))` to completion. -/
def Request.request (server : Server) (st : ClientState)
    (method url : String) (params data json : Option String) (w : World) :
    Except PyError PyVal × World :=
  Request._request server st method url params data json w

/-- Position of each verb's entry in the dispatch dict of `_request`
(source order: get, post, put, patch, delete); the session handed to the
verb `v` sender is the `dictIndex v`-th of the five sessions constructed. -/
def dictIndex : Verb → Nat
  | .get => 0
  | .post => 1
  | .put => 2
  | .patch => 3
  | .delete => 4

/-- The transport call that the verb `v` entry of the dispatch dict hands
to the aiohttp session call, given the client state and the arguments of
`_request` (read off the five `self._get/…` invocations in the source). -/
def dispatchCall (v : Verb) (st : ClientState) (url : String)
    (params data json : Option String) : TransportCall :=
  match v with
  | .get =>
      { verb := .get, url := url, params := params, data := none, json := none
        headers := st.header, timeout := st.request_timeout }
  | .post =>
      { verb := .post, url := url, params := none, data := data, json := json
        headers := st.header, timeout := st.request_timeout }
  | .put =>
      { verb := .put, url := url, params := none, data := data, json := none
        headers := st.header, timeout := st.request_timeout }
  | .patch =>
      { verb := .patch, url := url, params := none, data := data, json := none
        headers := st.header, timeout := st.request_timeout }
  | .delete =>
      { verb := .delete, url := url, params := none, data := none, json := none
        headers := st.header, timeout := st.request_timeout }

/-- The world after the dispatch dict of `_request` has been evaluated and
the selected coroutine has performed its one network call `c`: five fresh
sessions logged and the call appended. -/
def afterDispatch (c : TransportCall) (w : World) : World :=
  { w with
      nextSession := w.nextSession + 5
      createdSessions := w.createdSessions ++
        [w.nextSession, w.nextSession + 1, w.nextSession + 2,
         w.nextSession + 3, w.nextSession + 4]
      calls := w.calls ++ [c] }

/-- Derived description of a `request()` run whose method selects verb `v`:
the five sessions are constructed, the single call `dispatchCall v …` is
performed, and then the selected sender either succeeds (gather wraps the
result in a list; the selected session is closed), fails decoding (session
not closed) or, for DELETE, raises `TypeError` from `await response.status`
(session not closed).  Proved equal to `Request.request` in
`request_eq_runSpec`. -/
def runSpec (v : Verb) (server : Server) (st : ClientState) (url : String)
    (params data json : Option String) (w : World) :
    Except PyError PyVal × World :=
  match v with
  | .delete =>
      (.error (.typeError "object int cannot be used in await expression"),
       afterDispatch (dispatchCall .delete st url params data json) w)
  | .get =>
      match HttpResponse.json (server (dispatchCall .get st url params data json)) with
      | .ok j =>
          (.ok (.list [.json j]),
           sessionClose (w.nextSession + dictIndex .get)
             (afterDispatch (dispatchCall .get st url params data json) w))
      | .error e =>
          (.error e, afterDispatch (dispatchCall .get st url params data json) w)
  | .post =>
      match HttpResponse.json (server (dispatchCall .post st url params data json)) with
      | .ok j =>
          (.ok (.list [.json j]),
           sessionClose (w.nextSession + dictIndex .post)
             (afterDispatch (dispatchCall .post st url params data json) w))
      | .error e =>
          (.error e, afterDispatch (dispatchCall .post st url params data json) w)
  | .put =>
      match HttpResponse.json (server (dispatchCall .put st url params data json)) with
      | .ok j =>
          (.ok (.list [.json j]),
           sessionClose (w.nextSession + dictIndex .put)
             (afterDispatch (dispatchCall .put st url params data json) w))
      | .error e =>
          (.error e, afterDispatch (dispatchCall .put st url params data json) w)
  | .patch =>
      match HttpResponse.json (server (dispatchCall .patch st url params data json)) with
      | .ok j =>
          (.ok (.list [.json j]),
           sessionClose (w.nextSession + dictIndex .patch)
             (afterDispatch (dispatchCall .patch st url params data json) w))
      | .error e =>
          (.error e, afterDispatch (dispatchCall .patch st url params data json) w)

theorem request_eq_runSpec (server : Server) (st : ClientState)
    (method url : String) (params data json : Option String) (w : World)
    (v : Verb) (h : methodKey method = some v) :
    Request.request server st method url params data json w =
      runSpec v server st url params data json w := by
  cases v <;>
    simp only [Request.request, Request._request, Request.client_session, h,
      runSpec, dispatchCall, dictIndex, Request._get, Request._post,
      Request._put, Request._patch, Request._delete, sessionRequest,
      sessionClose, afterDispatch] <;>
    (try split) <;>
    simp_all [Except.map, Prod.ext_iff, World.mk.injEq, List.append_assoc,
      List.append_right_inj]

/-- Behavior of a `request()` run on an unrecognized method: the five
sessions are still constructed, no network call is made, and
`asyncio.gather(None)` raises `TypeError`. -/
theorem request_none (server : Server) (st : ClientState)
    (method url : String) (params data json : Option String) (w : World)
    (h : methodKey method = none) :
    Request.request server st method url params data json w =
      (.error (.typeError
         "An asyncio.Future, a coroutine or an awaitable is required"),
       { w with
          nextSession := w.nextSession + 5
          createdSessions := w.createdSessions ++
            [w.nextSession, w.nextSession + 1, w.nextSession + 2,
             w.nextSession + 3, w.nextSession + 4] }) := by
  simp only [Request.request, Request._request, Request.client_session, h]
  simp [Prod.ext_iff, World.mk.injEq, List.append_assoc]

/-- Test server answering every call with status 200, content type JSON and
body text `{"a": 1}` decoding to the mapping with the single field `a = 1`. -/
def serverA1 : Server := fun _ =>
  { status := 200
    bodyText := "\x7b\"a\": 1\x7d"
    contentTypeJson := true
    bodyJson := some (.obj [("a", .num 1)]) }

/-- Test server answering every call with status 204 and an empty,
non-JSON body. -/
def server204 : Server := fun _ =>
  { status := 204, bodyText := "", contentTypeJson := false, bodyJson := none }

/-- Test server answering every call with status 500 and an HTML (non-JSON)
body. -/
def serverHtml : Server := fun _ =>
  { status := 500
    bodyText := "<html>error</html>"
    contentTypeJson := false
    bodyJson := none }

/-- Example url used by the concrete runs below. -/
def exUrl : String := "https://example.com/items"

theorem request_calls_eq (server : Server) (st : ClientState)
    (method url : String) (params data json : Option String) (w : World)
    (v : Verb) (h : methodKey method = some v) :
    (Request.request server st method url params data json w).2.calls
      = w.calls ++ [dispatchCall v st url params data json] := by
  rw [request_eq_runSpec server st method url params data json w v h]
  cases v <;> simp only [runSpec] <;> (try split) <;> rfl

theorem request_created_eq (server : Server) (st : ClientState)
    (method url : String) (params data json : Option String) (w : World)
    (v : Verb) (h : methodKey method = some v) :
    (Request.request server st method url params data json w).2.createdSessions
      = w.createdSessions ++
        [w.nextSession, w.nextSession + 1, w.nextSession + 2,
         w.nextSession + 3, w.nextSession + 4] := by
  rw [request_eq_runSpec server st method url params data json w v h]
  cases v <;> simp only [runSpec] <;> (try split) <;> rfl

theorem request_closed_eq (server : Server) (st : ClientState)
    (method url : String) (params data json : Option String) (w : World)
    (v : Verb) (h : methodKey method = some v) :
    (Request.request server st method url params data json w).2.closedSessions
        = w.closedSessions ∨
      (Request.request server st method url params data json w).2.closedSessions
        = w.closedSessions ++ [w.nextSession + dictIndex v] := by
  rw [request_eq_runSpec server st method url params data json w v h]
  cases v <;> simp only [runSpec] <;> (try split) <;>
    first
      | exact Or.inl rfl
      | exact Or.inr rfl

/-- C1, counterexample: the claim says every `request()` call with a
supported method issues five live HTTP requests against the url.  On a
concrete GET run the transport records exactly one call, not five:
building the dispatch dict creates five coroutine objects, but a coroutine
body only runs when awaited, and only the selected one is awaited. -/
theorem C1_counterexample :
    (Request.request serverA1 Request.init "GET" exUrl none none none
        World.initial).2.calls.length = 1 ∧
      ¬ (Request.request serverA1 Request.init "GET" exUrl none none none
          World.initial).2.calls.length = 5 := by
  exact ⟨rfl, by decide⟩

/-- C1, amended: for every `request()` call with a supported method, the
dispatch dict is fully evaluated — five client sessions are constructed —
but only the coroutine selected by key runs, so exactly one live HTTP
request is issued against the url, with the verb matching the method; the
four unselected coroutines never issue a request. -/
theorem C1_single_request (server : Server) (st : ClientState)
    (method url : String) (params data json : Option String) (w : World)
    (v : Verb) (h : methodKey method = some v) :
    (Request.request server st method url params data json w).2.createdSessions
        = w.createdSessions ++
          [w.nextSession, w.nextSession + 1, w.nextSession + 2,
           w.nextSession + 3, w.nextSession + 4] ∧
      (Request.request server st method url params data json w).2.calls
        = w.calls ++ [dispatchCall v st url params data json] ∧
      (dispatchCall v st url params data json).verb = v := by
  refine ⟨request_created_eq server st method url params data json w v h,
    request_calls_eq server st method url params data json w v h, ?_⟩
  cases v <;> rfl

theorem C1_single_request_witness :
    (Request.request serverA1 Request.init "GET" exUrl none none none
        World.initial).2.createdSessions = [0, 1, 2, 3, 4] ∧
      (Request.request serverA1 Request.init "GET" exUrl none none none
          World.initial).2.calls
        = [dispatchCall Verb.get Request.init exUrl none none none] ∧
      (dispatchCall Verb.get Request.init exUrl none none none).verb
        = Verb.get :=
  C1_single_request serverA1 Request.init "GET" exUrl none none none
    World.initial Verb.get (by decide)

/-- C2: for every one of the five supported verb strings, in any character
case, a `request()` call performs exactly one network operation (the call
log grows by exactly one entry), and that operation targets the given url. -/
theorem C2_exactly_one_call (server : Server) (st : ClientState)
    (method url : String) (params data json : Option String) (w : World)
    (v : Verb) (h : methodKey method = some v) :
    (Request.request server st method url params data json w).2.calls
        = w.calls ++ [dispatchCall v st url params data json] ∧
      (dispatchCall v st url params data json).url = url := by
  refine ⟨request_calls_eq server st method url params data json w v h, ?_⟩
  cases v <;> rfl

theorem C2_exactly_one_call_witness :
    (Request.request server204 Request.init "DeLeTe" exUrl none none none
        World.initial).2.calls
        = [dispatchCall Verb.delete Request.init exUrl none none none] ∧
      (dispatchCall Verb.delete Request.init exUrl none none none).url
        = exUrl :=
  C2_exactly_one_call server204 Request.init "DeLeTe" exUrl none none none
    World.initial Verb.delete (by decide)

/-- C3, counterexample: the claim says an unsupported method fails with an
`UnsupportedMethodError`.  On a concrete run with method `HEAD` the failure
is the `TypeError` raised by `asyncio.gather(None)` — the source defines no
`UnsupportedMethodError` — though indeed zero network calls are issued. -/
theorem C3_counterexample :
    (Request.request serverA1 Request.init "HEAD" exUrl none none none
        World.initial).1
        = .error (.typeError
            "An asyncio.Future, a coroutine or an awaitable is required") ∧
      (PyError.typeError
          "An asyncio.Future, a coroutine or an awaitable is required"
        ).isUnsupportedMethodError = false ∧
      (Request.request serverA1 Request.init "HEAD" exUrl none none none
          World.initial).2.calls = [] := by
  exact ⟨rfl, rfl, rfl⟩

/-- C3, amended: for every method string that is not one of the five verbs
(case-insensitively), `request()` fails with the `TypeError` that
`asyncio.gather` raises on the `None` produced by the dict lookup, and
issues zero network calls (the call log is unchanged). -/
theorem C3_gather_type_error (server : Server) (st : ClientState)
    (method url : String) (params data json : Option String) (w : World)
    (h : methodKey method = none) :
    (Request.request server st method url params data json w).1
        = .error (.typeError
            "An asyncio.Future, a coroutine or an awaitable is required") ∧
      (Request.request server st method url params data json w).2.calls
        = w.calls := by
  rw [request_none server st method url params data json w h]
  exact ⟨rfl, rfl⟩

theorem C3_gather_type_error_witness :
    (Request.request serverA1 Request.init "HEAD" exUrl none none none
        World.initial).1
        = .error (.typeError
            "An asyncio.Future, a coroutine or an awaitable is required") ∧
      (Request.request serverA1 Request.init "HEAD" exUrl none none none
          World.initial).2.calls = [] :=
  C3_gather_type_error serverA1 Request.init "HEAD" exUrl none none none
    World.initial (by decide)

/-- C4, counterexample: the claim says `request("GET", url)` returns the
mapping `a = 1` when the server answers it with status 200.  The concrete
run returns the one-element list holding that mapping instead, because
`await asyncio.gather(coroutine)` aggregates its results into a list. -/
theorem C4_counterexample :
    (Request.request serverA1 Request.init "GET" exUrl none none none
        World.initial).1
        = .ok (.list [.json (.obj [("a", .num 1)])]) ∧
      ¬ (Request.request serverA1 Request.init "GET" exUrl none none none
          World.initial).1
        = .ok (.json (.obj [("a", .num 1)])) := by
  refine ⟨rfl, fun hcontra => ?_⟩
  rw [show (Request.request serverA1 Request.init "GET" exUrl none none none
      World.initial).1
      = Except.ok (PyVal.list [PyVal.json (Json.obj [("a", Json.num 1)])])
    from rfl] at hcontra
  simp at hcontra

/-- C4, amended: for a GET whose server responds with status 200 and a body
decoding to the mapping `a = 1`, `request()` returns the one-element list
containing that mapping (gather wraps the single result in a list). -/
theorem C4_get_returns_singleton_list (server : Server) (st : ClientState)
    (method url : String) (params data json : Option String) (w : World)
    (h : methodKey method = some .get)
    (hs : HttpResponse.json (server (dispatchCall .get st url params data json))
        = .ok (.obj [("a", .num 1)])) :
    (Request.request server st method url params data json w).1
      = .ok (.list [.json (.obj [("a", .num 1)])]) := by
  rw [request_eq_runSpec server st method url params data json w .get h]
  simp only [runSpec, hs]

theorem C4_get_returns_singleton_list_witness :
    (Request.request serverA1 Request.init "GET" exUrl none none none
        World.initial).1
      = .ok (.list [.json (.obj [("a", .num 1)])]) :=
  C4_get_returns_singleton_list serverA1 Request.init "GET" exUrl none none
    none World.initial (by decide) rfl

/-- C5: the claim says `request("DELETE", url)` returns the integer 204
when the server answers 204 with an empty body, without JSON decoding.
Evaluating the code at that input: the one DELETE network call is
performed, no JSON decoding is attempted, but the call then raises
`TypeError` — `_delete` runs `await response.status` and an `int` cannot be
awaited — so 204 is never returned (and `asyncio.gather` would wrap it in a
list even if it were). -/
theorem C5_delete_raises_type_error :
    (Request.request server204 Request.init "DELETE" exUrl none none none
        World.initial).1
        = .error (.typeError "object int cannot be used in await expression") ∧
      (Request.request server204 Request.init "DELETE" exUrl none none none
          World.initial).2.calls
        = [dispatchCall Verb.delete Request.init exUrl none none none] := by
  exact ⟨rfl, rfl⟩

/-- C6: the claim says the session opened for a request is closed on every
exit path.  Evaluating the code at a POST whose server returns a non-JSON
body: the decode failure propagates, and the set of closed sessions is
empty — `await session.close()` sits after the `async with` block in
`_post` and is skipped by the exception — while five sessions were
constructed for the call, so sessions are left open. -/
theorem C6_session_left_open :
    (Request.request serverHtml Request.init "POST" exUrl none (some "k=v")
        none World.initial).1
        = .error (.contentTypeError 500) ∧
      (Request.request serverHtml Request.init "POST" exUrl none (some "k=v")
          none World.initial).2.closedSessions = [] ∧
      (Request.request serverHtml Request.init "POST" exUrl none (some "k=v")
          none World.initial).2.createdSessions = [0, 1, 2, 3, 4] := by
  exact ⟨rfl, rfl, rfl⟩

/-- C7, counterexample: the claim says a non-JSON response body makes the
call fail with a `DecodeError` carrying the raw status and body.  On a
concrete POST whose server returns non-JSON content, the failure is the
underlying library's `ContentTypeError` (carrying only the status); the
source defines no `DecodeError` and wraps nothing. -/
theorem C7_counterexample :
    (Request.request serverHtml Request.init "POST" exUrl none none none
        World.initial).1
        = .error (.contentTypeError 500) ∧
      (PyError.contentTypeError 500).isDecodeError = false := by
  exact ⟨rfl, rfl⟩

/-- C7, amended: for every GET, POST, PUT or PATCH whose response body
fails to decode, the call fails by propagating the decode exception raised
by the library's `response.json()` unchanged (a `ContentTypeError` carrying
the status, or a `JSONDecodeError` carrying the document text); no
repository-defined `DecodeError` with status and body exists. -/
theorem C7_decode_error_propagates (server : Server) (st : ClientState)
    (method url : String) (params data json : Option String) (w : World)
    (v : Verb) (e : PyError) (h : methodKey method = some v)
    (hv : ¬ v = Verb.delete)
    (hd : HttpResponse.json (server (dispatchCall v st url params data json))
        = .error e) :
    (Request.request server st method url params data json w).1
      = .error e := by
  rw [request_eq_runSpec server st method url params data json w v h]
  cases v
  case delete => exact absurd rfl hv
  all_goals simp only [runSpec, hd]

theorem C7_decode_error_propagates_witness :
    (Request.request serverHtml Request.init "POST" exUrl none none none
        World.initial).1
      = .error (.contentTypeError 500) :=
  C7_decode_error_propagates serverHtml Request.init "POST" exUrl none none
    none World.initial Verb.post (.contentTypeError 500) (by decide)
    (by decide) rfl

/-- C8: the timeout setter stores a timeout of total `s` seconds; a request
dispatched afterwards hands exactly that value to the transport call, while
a request dispatched under the earlier state hands the earlier stored
value — the senders receive the timeout by value at dispatch, so a later
set cannot affect a call already dispatched. -/
theorem C8_set_time_out_applies (server : Server) (st : ClientState)
    (s : Rat) (method url : String) (params data json : Option String)
    (w w2 : World) (v : Verb) (h : methodKey method = some v) :
    (Request.set_time_out st s).request_timeout = ⟨s⟩ ∧
      (Request.request server (Request.set_time_out st s) method url params
          data json w).2.calls
        = w.calls ++
          [dispatchCall v (Request.set_time_out st s) url params data json] ∧
      (dispatchCall v (Request.set_time_out st s) url params data json).timeout
        = ⟨s⟩ ∧
      (Request.request server st method url params data json w2).2.calls
        = w2.calls ++ [dispatchCall v st url params data json] ∧
      (dispatchCall v st url params data json).timeout
        = st.request_timeout := by
  refine ⟨rfl,
    request_calls_eq server (Request.set_time_out st s) method url params
      data json w v h, ?_,
    request_calls_eq server st method url params data json w2 v h, ?_⟩ <;>
    cases v <;> rfl

theorem C8_set_time_out_applies_witness :
    (Request.set_time_out Request.init 5).request_timeout = ⟨5⟩ ∧
      (Request.request serverA1 (Request.set_time_out Request.init 5) "get"
          exUrl none none none World.initial).2.calls
        = [dispatchCall Verb.get (Request.set_time_out Request.init 5) exUrl
            none none none] ∧
      (dispatchCall Verb.get (Request.set_time_out Request.init 5) exUrl none
          none none).timeout = ⟨5⟩ ∧
      (Request.request serverA1 Request.init "get" exUrl none none none
          World.initial).2.calls
        = [dispatchCall Verb.get Request.init exUrl none none none] ∧
      (dispatchCall Verb.get Request.init exUrl none none none).timeout
        = Request.init.request_timeout :=
  C8_set_time_out_applies serverA1 Request.init 5 "get" exUrl none none none
    World.initial World.initial Verb.get (by decide)

/-- C9: every `request()` call with a supported method constructs five
fresh client sessions (one per dispatch-dict entry), and the only session
that can ever be newly closed is the one handed to the selected verb
sender (the `dictIndex`-th of the five); the other four are never closed. -/
theorem C9_five_sessions_only_selected_closed (server : Server)
    (st : ClientState) (method url : String)
    (params data json : Option String) (w : World) (v : Verb)
    (h : methodKey method = some v) :
    (Request.request server st method url params data json w).2.createdSessions
        = w.createdSessions ++
          [w.nextSession, w.nextSession + 1, w.nextSession + 2,
           w.nextSession + 3, w.nextSession + 4] ∧
      ((Request.request server st method url params data json w).2.closedSessions
          = w.closedSessions ∨
        (Request.request server st method url params data json w).2.closedSessions
          = w.closedSessions ++ [w.nextSession + dictIndex v]) :=
  ⟨request_created_eq server st method url params data json w v h,
   request_closed_eq server st method url params data json w v h⟩

theorem C9_five_sessions_only_selected_closed_witness :
    (Request.request serverA1 Request.init "GET" exUrl none none none
        World.initial).2.createdSessions = [0, 1, 2, 3, 4] ∧
      ((Request.request serverA1 Request.init "GET" exUrl none none none
            World.initial).2.closedSessions = [] ∨
        (Request.request serverA1 Request.init "GET" exUrl none none none
            World.initial).2.closedSessions = [0 + dictIndex Verb.get]) :=
  C9_five_sessions_only_selected_closed serverA1 Request.init "GET" exUrl
    none none none World.initial Verb.get (by decide)

/-- C10: the json body argument reaches the transport only for POST; the
PUT and PATCH senders are invoked without it, so the transport call carries
`json = none` for every verb other than POST (a json payload supplied with
PUT or PATCH is silently dropped), while the data argument is forwarded for
PUT and PATCH. -/
theorem C10_json_forwarded_only_for_post (server : Server) (st : ClientState)
    (method url : String) (params data json : Option String) (w : World)
    (v : Verb) (h : methodKey method = some v) :
    (Request.request server st method url params data json w).2.calls
        = w.calls ++ [dispatchCall v st url params data json] ∧
      (dispatchCall v st url params data json).json
        = (if v = Verb.post then json else none) ∧
      ((v = Verb.put ∨ v = Verb.patch) →
        (dispatchCall v st url params data json).data = data) := by
  refine ⟨request_calls_eq server st method url params data json w v h,
    ?_, ?_⟩
  · cases v <;> rfl
  · cases v <;> simp [dispatchCall]

theorem C10_json_forwarded_only_for_post_witness :
    (Request.request serverA1 Request.init "PUT" exUrl none (some "d=1")
        (some "\x7b\"p\": 2\x7d") World.initial).2.calls
        = [dispatchCall Verb.put Request.init exUrl none (some "d=1")
            (some "\x7b\"p\": 2\x7d")] ∧
      (dispatchCall Verb.put Request.init exUrl none (some "d=1")
          (some "\x7b\"p\": 2\x7d")).json
        = (if Verb.put = Verb.post then some "\x7b\"p\": 2\x7d" else none) ∧
      ((Verb.put = Verb.put ∨ Verb.put = Verb.patch) →
        (dispatchCall Verb.put Request.init exUrl none (some "d=1")
            (some "\x7b\"p\": 2\x7d")).data = some "d=1") :=
  C10_json_forwarded_only_for_post serverA1 Request.init "PUT" exUrl none
    (some "d=1") (some "\x7b\"p\": 2\x7d") World.initial Verb.put (by decide)

end AsyncRequest
